import Mathlib

/-!
Verification development for the Vision One OCI bucket batch scanner
(`src/function/func.py`).

The Python source is shallowly embedded:
* Python dicts become insertion-ordered association lists (`PyDict`),
  with lookup (`dictGet`), assignment (`dictSet`) and the double-unpacking
  merge `\x7b**a, **b\x7d` (`dictMerge`).
* Python values appearing in the scanner's dicts become `PyVal`.
* Object storage becomes an association map from (bucket, key) to object
  data; fallible storage calls are driven by an explicit failure oracle.
* Exceptions become `Except` / early-returned status strings, exactly as
  the source's `try/except` blocks convert them.
-/

/-- A Python value occurring in the scanner's dictionaries. -/
inductive PyVal where
  | str : String → PyVal
  | bool : Bool → PyVal
  | int : Int → PyVal
  | list : List String → PyVal
  | none : PyVal
deriving DecidableEq

/-- An insertion-ordered Python dict with `String` keys. -/
abbrev PyDict (α : Type) := List (String × α)

/-- Python `d[k]` / `d.get(k)`: first (hence, for a dict, only) binding of `k`. -/
def dictGet {α : Type} : PyDict α → String → Option α
  | [], _ => Option.none
  | (k, v) :: rest, key => if k = key then some v else dictGet rest key

/-- Python `d[k] = v`: overwrite in place when the key exists, else append. -/
def dictSet {α : Type} : PyDict α → String → α → PyDict α
  | [], key, val => [(key, val)]
  | (k, v) :: rest, key, val =>
      if k = key then (k, val) :: rest else (k, v) :: dictSet rest key val

/-- Python `\x7b**base, **updates\x7d`: start from `base`, assign every
binding of `updates` in order (later keys win). -/
def dictMerge {α : Type} (base updates : PyDict α) : PyDict α :=
  updates.foldl (fun acc kv => dictSet acc kv.1 kv.2) base

/-- Python truthiness for the values the scanner tests. -/
def pyTruthy : PyVal → Bool
  | .str s => s != ""
  | .bool b => b
  | .int n => n != 0
  | .list l => !l.isEmpty
  | .none => false

/-- Truthiness of a `d.get(k)` result (`None` when the key is absent). -/
def pyTruthyOpt : Option PyVal → Bool
  | Option.none => false
  | some v => pyTruthy v

/-- Python `d.get(k, dflt)`: the stored value (even `None`) when present. -/
def pyGetD {α : Type} (d : PyDict α) (k : String) (dflt : α) : α :=
  match dictGet d k with
  | some v => v
  | Option.none => dflt

/-- The boolean read `scan_result['is_malware_detected']` performs
(a missing or non-bool value never occurs on pipeline dicts). -/
def pyBoolOf : Option PyVal → Bool
  | some (.bool b) => b
  | _ => false

/-- The string read `scan_result['object_name']` performs. -/
def pyStrOf : Option PyVal → String
  | some (.str s) => s
  | _ => ""

section DictLemmas

variable {α : Type}

theorem dictGet_dictSet_same (d : PyDict α) (k : String) (v : α) :
    dictGet (dictSet d k v) k = some v := by
  induction d with
  | nil => simp [dictSet, dictGet]
  | cons kv rest ih =>
      obtain ⟨k', v'⟩ := kv
      by_cases h : k' = k
      · simp [dictSet, dictGet, h]
      · simp [dictSet, dictGet, h, ih]

theorem dictGet_dictSet_other (d : PyDict α) {k k' : String} (v : α) (h : k' ≠ k) :
    dictGet (dictSet d k' v) k = dictGet d k := by
  induction d with
  | nil => simp [dictSet, dictGet, h]
  | cons kv rest ih =>
      obtain ⟨k₀, v₀⟩ := kv
      by_cases h₀ : k₀ = k'
      · subst h₀
        rw [dictSet, if_pos rfl, dictGet, dictGet, if_neg h, if_neg h]
      · rw [dictSet, if_neg h₀, dictGet, dictGet]
        by_cases h₁ : k₀ = k
        · rw [if_pos h₁, if_pos h₁]
        · rw [if_neg h₁, if_neg h₁, ih]

theorem dictSet_dictSet_same (d : PyDict α) (k : String) (v w : α) :
    dictSet (dictSet d k v) k w = dictSet d k w := by
  induction d with
  | nil => simp [dictSet]
  | cons kv rest ih =>
      obtain ⟨k₀, v₀⟩ := kv
      by_cases h : k₀ = k
      · simp [dictSet, h]
      · simp [dictSet, h, ih]

theorem dictGet_eq_none_of_not_mem {d : PyDict α} {k : String}
    (h : k ∉ d.map Prod.fst) : dictGet d k = Option.none := by
  induction d with
  | nil => simp [dictGet]
  | cons kv rest ih =>
      obtain ⟨k₀, v₀⟩ := kv
      simp only [List.map_cons, List.mem_cons] at h
      push_neg at h
      rw [dictGet, if_neg (Ne.symm h.1), ih h.2]

theorem dictGet_dictMerge_of_none {m : PyDict α} {k : String}
    (e : PyDict α) (h : dictGet m k = Option.none) :
    dictGet (dictMerge e m) k = dictGet e k := by
  induction m generalizing e with
  | nil => simp [dictMerge]
  | cons kv rest ih =>
      obtain ⟨k₀, v₀⟩ := kv
      simp only [dictGet] at h
      by_cases h₀ : k₀ = k
      · simp [h₀] at h
      · simp only [h₀, if_false] at h
        show dictGet (dictMerge (dictSet e k₀ v₀) rest) k = dictGet e k
        rw [ih (dictSet e k₀ v₀) h, dictGet_dictSet_other _ _ h₀]

theorem dictGet_dictMerge_of_some {m : PyDict α} {k : String} {v : α}
    (e : PyDict α) (hnd : (m.map Prod.fst).Nodup) (h : dictGet m k = some v) :
    dictGet (dictMerge e m) k = some v := by
  induction m generalizing e with
  | nil => simp [dictGet] at h
  | cons kv rest ih =>
      obtain ⟨k₀, v₀⟩ := kv
      simp only [List.map_cons, List.nodup_cons] at hnd
      simp only [dictGet] at h
      by_cases h₀ : k₀ = k
      · subst h₀
        rw [if_pos rfl] at h
        obtain rfl : v₀ = v := Option.some.inj h
        show dictGet (dictMerge (dictSet e k₀ v₀) rest) k₀ = some v₀
        rw [dictGet_dictMerge_of_none _ (dictGet_eq_none_of_not_mem hnd.1),
          dictGet_dictSet_same]
      · rw [if_neg h₀] at h
        exact ih (dictSet e k₀ v₀) hnd.2 h

theorem dictSet_of_dictGet_eq {d : PyDict α} {k : String} {v : α}
    (h : dictGet d k = some v) : dictSet d k v = d := by
  induction d with
  | nil => simp [dictGet] at h
  | cons kv rest ih =>
      obtain ⟨k₀, v₀⟩ := kv
      simp only [dictGet] at h
      by_cases h₀ : k₀ = k
      · subst h₀
        rw [if_pos rfl] at h
        obtain rfl : v₀ = v := Option.some.inj h
        rw [dictSet, if_pos rfl]
      · rw [if_neg h₀] at h
        rw [dictSet, if_neg h₀, ih h]

theorem dictMerge_self_of_sub {m d : PyDict α}
    (h : ∀ kv ∈ m, dictGet d kv.1 = some kv.2) : dictMerge d m = d := by
  induction m generalizing d with
  | nil => rfl
  | cons kv rest ih =>
      obtain ⟨k₀, v₀⟩ := kv
      show dictMerge (dictSet d k₀ v₀) rest = d
      rw [dictSet_of_dictGet_eq (h (k₀, v₀) (List.mem_cons_self _ _))]
      exact ih fun kv hkv => h kv (List.mem_cons_of_mem _ hkv)

theorem dictGet_of_mem_nodup {m : PyDict α} {kv : String × α}
    (hnd : (m.map Prod.fst).Nodup) (h : kv ∈ m) : dictGet m kv.1 = some kv.2 := by
  induction m with
  | nil => simp at h
  | cons kv₀ rest ih =>
      obtain ⟨k₀, v₀⟩ := kv₀
      simp only [List.map_cons, List.nodup_cons] at hnd
      rcases List.mem_cons.mp h with h | h
      · subst h
        simp [dictGet]
      · have hk : k₀ ≠ kv.1 := by
          intro hk
          exact hnd.1 (hk ▸ List.mem_map_of_mem Prod.fst h)
        simp [dictGet, hk, ih hnd.2 h]

end DictLemmas

/-! ## Secret cache (`get_secret_from_vault`, func.py lines 30-61)

The process-wide `_secret_cache` dict becomes explicit state; the OCI
`SecretsClient` round-trip becomes an oracle answer `fetch` for the call:
`.ok v` when the vault returns bundle content `v`, `.error e` when the
client raises. A raise is converted to `ValueError("Failed to retrieve
secret from vault: ...")`, exactly as the source's `except` block does. -/

/-- One call to `get_secret_from_vault`: returns the result, the updated
cache, and whether the external fetch was attempted. -/
def getSecretFromVault (cache : PyDict String) (secretOcid : String)
    (fetch : Except String String) :
    Except String String × PyDict String × Bool :=
  match dictGet cache secretOcid with
  | some v => (.ok v, cache, false)
  | Option.none =>
      match fetch with
      | .ok v => (.ok v, dictSet cache secretOcid v, true)
      | .error e => (.error ("Failed to retrieve secret from vault: " ++ e), cache, true)

/-- A sequence of `get_secret_from_vault` calls. Each list entry is the
requested identifier together with the vault oracle's answer for the call
(consulted only when the cache misses). Returns the final cache and, per
call, the identifier, the result, and whether a fetch was attempted. -/
def runSecretCalls (cache : PyDict String) :
    List (String × Except String String) →
    PyDict String × List (String × Except String String × Bool)
  | [] => (cache, [])
  | (ocid, f) :: rest =>
      ((runSecretCalls (getSecretFromVault cache ocid f).2.1 rest).1,
       (ocid, (getSecretFromVault cache ocid f).1, (getSecretFromVault cache ocid f).2.2) ::
         (runSecretCalls (getSecretFromVault cache ocid f).2.1 rest).2)

/-- Number of calls in a run's output that asked for `s` and attempted the
external fetch. -/
def fetchCountFor (s : String) : List (String × Except String String × Bool) → Nat
  | [] => 0
  | (ocid, _, d) :: rest => (if ocid = s ∧ d = true then 1 else 0) + fetchCountFor s rest

theorem runSecretCalls_cache_mono {cache : PyDict String}
    (calls : List (String × Except String String)) {s : String}
    (h : (dictGet cache s).isSome) :
    (dictGet (runSecretCalls cache calls).1 s).isSome ∧
      fetchCountFor s (runSecretCalls cache calls).2 = 0 := by
  induction calls generalizing cache with
  | nil => exact ⟨h, rfl⟩
  | cons cf rest ih =>
      obtain ⟨ocid, f⟩ := cf
      rcases hc : dictGet cache ocid with _ | v
      · -- cache miss for `ocid`; then `ocid ≠ s` since `s` is cached
        have hos : ocid ≠ s := by
          intro he
          rw [← he, hc] at h
          simp at h
        rcases f with e | v'
        · have := @ih cache h
          simp only [runSecretCalls, getSecretFromVault, hc, fetchCountFor]
          refine ⟨this.1, ?_⟩
          rw [if_neg (fun hh => hos hh.1), this.2]
        · have h' : (dictGet (dictSet cache ocid v') s).isSome := by
            rw [dictGet_dictSet_other _ _ hos]
            exact h
          have := @ih (dictSet cache ocid v') h'
          simp only [runSecretCalls, getSecretFromVault, hc, fetchCountFor]
          refine ⟨this.1, ?_⟩
          rw [if_neg (fun hh => hos hh.1), this.2]
      · have := @ih cache h
        simp only [runSecretCalls, getSecretFromVault, hc, fetchCountFor]
        refine ⟨this.1, ?_⟩
        rw [if_neg (fun hh => Bool.false_ne_true hh.2), this.2]

theorem runSecretCalls_at_most_one_fetch {cache : PyDict String}
    (calls : List (String × Except String String)) {s : String}
    (hok : ∀ f, (s, f) ∈ calls → ∃ v, f = .ok v) :
    fetchCountFor s (runSecretCalls cache calls).2 ≤ 1 := by
  induction calls generalizing cache with
  | nil => simp [runSecretCalls, fetchCountFor]
  | cons cf rest ih =>
      obtain ⟨ocid, f⟩ := cf
      have hrest : ∀ f', (s, f') ∈ rest → ∃ v, f' = .ok v := fun f' hf' =>
        hok f' (List.mem_cons_of_mem _ hf')
      by_cases hos : ocid = s
      · subst hos
        rcases hc : dictGet cache ocid with _ | v
        · obtain ⟨v', hv'⟩ := hok f (List.mem_cons_self _ _)
          subst hv'
          have hcached : (dictGet (dictSet cache ocid v') ocid).isSome := by
            rw [dictGet_dictSet_same]
            rfl
          have hz := (runSecretCalls_cache_mono rest hcached).2
          simp only [runSecretCalls, getSecretFromVault, hc, fetchCountFor]
          rw [hz]
          simp
        · have := @ih cache hrest
          simp only [runSecretCalls, getSecretFromVault, hc, fetchCountFor]
          rw [if_neg (fun hh => Bool.false_ne_true hh.2)]
          simpa using this
      · rcases hc : dictGet cache ocid with _ | v
        · rcases f with e | v'
          · have := @ih cache hrest
            simp only [runSecretCalls, getSecretFromVault, hc, fetchCountFor]
            rw [if_neg (fun hh => hos hh.1)]
            simpa using this
          · have := @ih (dictSet cache ocid v') hrest
            simp only [runSecretCalls, getSecretFromVault, hc, fetchCountFor]
            rw [if_neg (fun hh => hos hh.1)]
            simpa using this
        · have := @ih cache hrest
          simp only [runSecretCalls, getSecretFromVault, hc, fetchCountFor]
          rw [if_neg (fun hh => hos hh.1)]
          simpa using this

/-! ## Configuration resolution (`_get_configuration`, func.py lines 85-164)

`os.environ` becomes `Env := String → Option String`; Python's
`if not value` treats both an absent variable and an empty string as
missing. The vault fetch (`get_secret_from_vault` applied to the cached
client) and Python `int(...)` parsing are abstracted as oracles `vault`
and `parseInt`; a `parseInt` miss models the `ValueError` that
`int(...)` raises on non-numeric input. The function returns the raised
error or the built config dict, plus the warnings logged on the way. -/

/-- Python `var.lower()` for the configuration key names. -/
def pyLower (s : String) : String := ⟨s.data.map Char.toLower⟩

/-- The loop over `required_vars`: each missing (absent or empty) variable
raises `ValueError`; present values land in the config under the
lower-cased name. -/
def requireEnvVars (env : String → Option String) :
    List String → PyDict PyVal → Except String (PyDict PyVal)
  | [], config => .ok config
  | v :: rest, config =>
      match env v with
      | Option.none => .error ("Missing required environment variable: " ++ v)
      | some s =>
          if s = "" then .error ("Missing required environment variable: " ++ v)
          else requireEnvVars env rest (dictSet config (pyLower v) (.str s))

/-- `required_vars` of `_get_configuration`. -/
def requiredVars : List String :=
  ["SOURCE_BUCKET_NAME", "V1_REGION", "V1_SCANNER_ENDPOINT", "V1_FILE_SCANNER_MODE"]

/-- `valid_modes` of `_get_configuration`. -/
def validModes : List String := ["MOVE_ALL", "MOVE_MALWARE_ONLY", "TAG_ONLY"]

/-- The mode-specific bucket requirements (func.py lines 121-147). -/
def bucketConfig (env : String → Option String) (scannerMode : String)
    (config : PyDict PyVal) : Except String (PyDict PyVal) :=
  if scannerMode = "MOVE_ALL" then
    match env "PRODUCTION_BUCKET_NAME" with
    | Option.none =>
        .error "Missing required environment variable for MOVE_ALL mode: PRODUCTION_BUCKET_NAME"
    | some p =>
        if p = "" then
          .error "Missing required environment variable for MOVE_ALL mode: PRODUCTION_BUCKET_NAME"
        else
          match env "QUARANTINE_BUCKET_NAME" with
          | Option.none =>
              .error "Missing required environment variable for MOVE_ALL mode: QUARANTINE_BUCKET_NAME"
          | some q =>
              if q = "" then
                .error "Missing required environment variable for MOVE_ALL mode: QUARANTINE_BUCKET_NAME"
              else
                .ok (dictSet (dictSet config "production_bucket_name" (.str p))
                  "quarantine_bucket_name" (.str q))
  else if scannerMode = "MOVE_MALWARE_ONLY" then
    match env "QUARANTINE_BUCKET_NAME" with
    | Option.none =>
        .error "Missing required environment variable for MOVE_MALWARE_ONLY mode: QUARANTINE_BUCKET_NAME"
    | some q =>
        if q = "" then
          .error "Missing required environment variable for MOVE_MALWARE_ONLY mode: QUARANTINE_BUCKET_NAME"
        else
          match env "PRODUCTION_BUCKET_NAME" with
          | some p =>
              if p = "" then .ok (dictSet config "quarantine_bucket_name" (.str q))
              else .ok (dictSet (dictSet config "quarantine_bucket_name" (.str q))
                "production_bucket_name" (.str p))
          | Option.none => .ok (dictSet config "quarantine_bucket_name" (.str q))
  else if scannerMode = "TAG_ONLY" then
    .ok (
      let c1 :=
        match env "PRODUCTION_BUCKET_NAME" with
        | some p => if p = "" then config else dictSet config "production_bucket_name" (.str p)
        | Option.none => config
      match env "QUARANTINE_BUCKET_NAME" with
      | some q => if q = "" then c1 else dictSet c1 "quarantine_bucket_name" (.str q)
      | Option.none => c1)
  else .ok config

/-- `os.environ.get(var, dflt)` (no truthiness test, unlike the
required-variable loop). -/
def envGetD (env : String → Option String) (k dflt : String) : String :=
  match env k with
  | some s => s
  | Option.none => dflt

/-- The part of `_get_configuration` after the scanner-mode
normalization (func.py lines 121-164): mode-specific buckets, the vault
secret, and the two numeric knobs. `vault` answers the
`get_secret_from_vault` call (its error already carries the
`Failed to retrieve secret from vault` wrap the callee adds);
`parseInt` models Python `int(...)`, `Option.none` being the
`ValueError` it raises on non-numeric input. -/
def configTail (env : String → Option String)
    (vault : String → Except String String) (parseInt : String → Option Int)
    (scannerMode : String) (config1 : PyDict PyVal) : Except String (PyDict PyVal) :=
  match bucketConfig env scannerMode config1 with
  | .error e => .error e
  | .ok config2 =>
      match env "VAULT_SECRET_OCID" with
      | Option.none => .error "Missing required environment variable: VAULT_SECRET_OCID"
      | some ocid =>
          if ocid = "" then .error "Missing required environment variable: VAULT_SECRET_OCID"
          else
            match vault ocid with
            | .error e => .error e
            | .ok apiKey =>
                let config3 := dictSet config2 "v1_api_key" (.str apiKey)
                match parseInt (envGetD env "MAX_FILES" "100") with
                | Option.none => .error "invalid literal for int: MAX_FILES"
                | some mf =>
                    match parseInt (envGetD env "CONCURRENT_SCANS" "5") with
                    | Option.none => .error "invalid literal for int: CONCURRENT_SCANS"
                    | some cs =>
                        .ok (dictSet (dictSet config3 "max_files" (.int mf))
                          "concurrent_scans" (.int cs))

/-- `_get_configuration`: the raised error or the finished config dict,
together with the warnings logged. -/
def getConfiguration (env : String → Option String)
    (vault : String → Except String String) (parseInt : String → Option Int) :
    Except String (PyDict PyVal) × List String :=
  match requireEnvVars env requiredVars [] with
  | .error e => (.error e, [])
  | .ok config0 =>
      -- scanner_mode = config.get('v1_file_scanner_mode', 'MOVE_ALL')
      let scannerMode0 :=
        match dictGet config0 "v1_file_scanner_mode" with
        | some (.str s) => s
        | _ => "MOVE_ALL"
      let config1 :=
        if scannerMode0 ∈ validModes then config0
        else dictSet config0 "v1_file_scanner_mode" (.str "MOVE_ALL")
      let scannerMode := if scannerMode0 ∈ validModes then scannerMode0 else "MOVE_ALL"
      let warnings :=
        if scannerMode0 ∈ validModes then ([] : List String)
        else ["Invalid scanner mode " ++ scannerMode0 ++ ", falling back to MOVE_ALL"]
      (configTail env vault parseInt scannerMode config1, warnings)

/-- Pointwise environment update, for comparing a run against the same
run with one variable replaced. -/
def envOverride (env : String → Option String) (k v : String) : String → Option String :=
  fun k' => if k' = k then some v else env k'

/-! ## Object storage model

OCI Object Storage becomes a map from (bucket, key) to object data.
Fallible storage calls inside one disposition are driven by a
`FailOracle`: a `true` flag makes the corresponding client call raise,
which the source's `try/except` blocks turn into the status strings
below. The defensive `isinstance(existing_meta, str)` / `json.loads`
branch of the source cannot fire here because the model's `head` returns
the stored metadata dict directly. -/

/-- One stored object: opaque content, content type header, metadata. -/
structure ObjData where
  content : String
  contentType : Option String
  meta : PyDict PyVal
deriving DecidableEq

/-- The object store: (bucket name, object name) to object data. -/
abbrev StorageState := List ((String × String) × ObjData)

def stGet (st : StorageState) (bk : String × String) : Option ObjData :=
  match st with
  | [] => Option.none
  | (bk', o) :: rest => if bk' = bk then some o else stGet rest bk

def stSet (st : StorageState) (bk : String × String) (o : ObjData) : StorageState :=
  match st with
  | [] => [(bk, o)]
  | (bk', o') :: rest => if bk' = bk then (bk', o) :: rest else (bk', o') :: stSet rest bk o

def stDel (st : StorageState) (bk : String × String) : StorageState :=
  match st with
  | [] => []
  | (bk', o') :: rest => if bk' = bk then rest else (bk', o') :: stDel rest bk

/-- Which storage client calls raise during one disposition. -/
structure FailOracle where
  getFails : Bool
  headFails : Bool
  putFails : Bool
  deleteFails : Bool
deriving DecidableEq

/-! ## Per-file scan (`_scan_file`, func.py lines 176-230) -/

/-- The parsed verdict document, as `_scan_file` reads it:
`scan_data.get('result', \x7b\x7d).get('atse', \x7b\x7d)` with
`malwareCount` (defaulted to 0) and the malware list, plus the three
top-level fields, each possibly missing. `atse = Option.none` covers
both a missing and an empty (hence falsy) `atse` section. -/
structure ScanData where
  atse : Option (Nat × List String)
  scanId : Option String
  fileSHA256 : Option String
  scannerVersion : Option String
deriving DecidableEq

/-- A possibly-missing string field of the verdict document, as stored in
the result dict (`None` when absent). -/
def optStr : Option String → PyVal
  | some s => .str s
  | Option.none => .none

/-- `_scan_file`: `outcome` is `.error e` when the download or the scan
call raised (the `except` path), `.ok d` when a verdict document was
parsed. Returns the dict the Python function returns. -/
def scanFile (objectName : String) (outcome : Except String ScanData) : PyDict PyVal :=
  match outcome with
  | .error e => [("object_name", .str objectName), ("error", .str e)]
  | .ok d =>
      let isMalwareDetected :=
        match d.atse with
        | some (malwareCount, _) => decide (malwareCount > 0)
        | Option.none => false
      [("object_name", .str objectName),
       ("is_malware_detected", .bool isMalwareDetected),
       ("scan_id", optStr d.scanId),
       ("file_sha256", optStr d.fileSHA256),
       ("scanner_version", optStr d.scannerVersion)]

/-! ## Disposition (`move_file_based_on_scan` and helpers, func.py 232-398) -/

/-- `scan_result['malware_names'][:3]` joined with commas. Any truthy
non-list value would make the Python subscript raise; the branch is
proved unreachable on pipeline dicts, so that case is mapped to `None`. -/
def joinMalwareNames : PyVal → PyVal
  | .list l => .str (String.intercalate "," (l.take 3))
  | _ => .none

/-- The scan-result metadata dict built by `move_file_based_on_scan`
(func.py lines 246-255); `t` is `int(time.time())`. -/
def buildScanMetadata (scanResult : PyDict PyVal) (isMalware : Bool) (t : Nat) : PyDict PyVal :=
  let metadata : PyDict PyVal :=
    [("filescanned", .str "true"),
     ("ismalwaredetected", .str (if isMalware then "true" else "false")),
     ("ondemand_scantimestamp", .str (toString t)),
     ("scanid", pyGetD scanResult "scan_id" (.str "")),
     ("scannerversion", pyGetD scanResult "scanner_version" (.str ""))]
  if isMalware && pyTruthyOpt (dictGet scanResult "malware_names") then
    dictSet metadata "malwarenames" (joinMalwareNames (pyGetD scanResult "malware_names" .none))
  else metadata

/-- The disposition an incoming verdict selects, extracted from the
`if mode == ...` chain of `move_file_based_on_scan`. `fallbackTag` is the
warned tag-in-place of the final `else`; the executed storage action is
the same as `tagInPlace`. -/
inductive ScanAction where
  | tagInPlace : ScanAction
  | moveTo : String → ScanAction
  | fallbackTag : ScanAction
deriving DecidableEq

/-- The decision chain of `move_file_based_on_scan` (func.py lines
257-283) as a pure function of mode, verdict, and the configured bucket
entries (`config.get(...)`, with Python truthiness). Any mode other than
the two tested strings falls into the `MOVE_ALL` branch, as in the
source's final `else`. -/
def decideAction (mode : String) (isMalware : Bool)
    (quarantine production : Option String) : ScanAction :=
  if mode = "TAG_ONLY" then .tagInPlace
  else if mode = "MOVE_MALWARE_ONLY" then
    if isMalware then
      match quarantine with
      | some q => if q = "" then .tagInPlace else .moveTo q
      | Option.none => .tagInPlace
    else .tagInPlace
  else
    match (if isMalware then quarantine else production) with
    | some b => if b = "" then .fallbackTag else .moveTo b
    | Option.none => .fallbackTag

/-- `_update_file_metadata_in_place` (func.py lines 285-331): re-read the
object, merge metadata over the (defensively read) existing metadata, and
put it back to the source bucket. Raises become the failure status. -/
def updateFileMetadataInPlace (sourceBucket objectName : String)
    (metadata : PyDict PyVal) (st : StorageState) (oracle : FailOracle) :
    StorageState × String :=
  if oracle.getFails then (st, "metadata_update_failed")
  else
    match stGet st (sourceBucket, objectName) with
    | Option.none => (st, "metadata_update_failed")
    | some o =>
        let existingMeta := if oracle.headFails then [] else o.meta
        let updatedMeta := dictMerge existingMeta metadata
        if oracle.putFails then (st, "metadata_update_failed")
        else (stSet st (sourceBucket, objectName)
          ⟨o.content, o.contentType, updatedMeta⟩, "metadata_updated")

/-- Everything `_move_file_to_bucket` produces: the final store, the
returned status string, and whether the put and the delete calls were
issued (in source order: get, head, put, then delete only after the put
returned). -/
structure MoveOutcome where
  state : StorageState
  status : String
  putIssued : Bool
  putSucceeded : Bool
  deleteIssued : Bool
deriving DecidableEq

/-- `_move_file_to_bucket` (func.py lines 333-398): copy the source
object to the target bucket with merged metadata, and only after a
successful put delete the source. The inner `except` around the put
returns `copy_failed`; the outer `except` turns a get or delete raise
into `move_failed`. -/
def moveFileToBucket (sourceBucket objectName targetBucket : String)
    (metadata : PyDict PyVal) (st : StorageState) (oracle : FailOracle) : MoveOutcome :=
  if oracle.getFails then ⟨st, "move_failed", false, false, false⟩
  else
    match stGet st (sourceBucket, objectName) with
    | Option.none => ⟨st, "move_failed", false, false, false⟩
    | some o =>
        let existingMeta := if oracle.headFails then [] else o.meta
        let metadata1 := dictSet metadata "originalbucket" (.str sourceBucket)
        let updatedMeta := dictMerge existingMeta metadata1
        if oracle.putFails then ⟨st, "copy_failed", true, false, false⟩
        else
          let st1 := stSet st (targetBucket, objectName) ⟨o.content, o.contentType, updatedMeta⟩
          if oracle.deleteFails then ⟨st1, "move_failed", true, true, true⟩
          else ⟨stDel st1 (sourceBucket, objectName), "moved", true, true, true⟩

/-- The configuration fields `move_file_based_on_scan` and `scan_bucket`
read (`self.config[...]` / `self.config.get(...)`). -/
structure RunConfig where
  sourceBucketName : String
  v1FileScannerMode : String
  quarantineBucketName : Option String
  productionBucketName : Option String
deriving DecidableEq

/-- `move_file_based_on_scan` (func.py lines 232-283): an error dict
short-circuits to status `error`; otherwise the metadata is built and the
action selected by `decideAction` is executed. -/
def moveFileBasedOnScan (cfg : RunConfig) (st : StorageState)
    (scanResult : PyDict PyVal) (t : Nat) (oracle : FailOracle) :
    StorageState × String :=
  if (dictGet scanResult "error").isSome then (st, "error")
  else
    let objectName := pyStrOf (dictGet scanResult "object_name")
    let isMalware := pyBoolOf (dictGet scanResult "is_malware_detected")
    let metadata := buildScanMetadata scanResult isMalware t
    match decideAction cfg.v1FileScannerMode isMalware
        cfg.quarantineBucketName cfg.productionBucketName with
    | .moveTo target =>
        let out := moveFileToBucket cfg.sourceBucketName objectName target metadata st oracle
        (out.state, out.status)
    | _ => updateFileMetadataInPlace cfg.sourceBucketName objectName metadata st oracle

/-! ## Batch run (`scan_bucket`, func.py lines 464-527)

The listing is the (already fetched) object-name list; `scanOf` gives
each worker's outcome (the future's value, i.e. what `_scan_file`
returned), `oracleOf` the storage failures during that object's
disposition. The worker pool is completion-ordered in the source and the
order is intentionally unspecified, so the embedding processes the given
list in order; the counters' final value is all the claims use. Wall
clock becomes the `elapsed` parameter (`time.time() - start_time` at the
point the source computes `result.duration`). -/

/-- The `ScanResult` dataclass (func.py lines 63-72); `duration` in whole
time units. -/
structure ScanResult where
  total : Nat
  scanned : Nat
  clean : Nat
  malware : Nat
  errors : Nat
  skipped : Nat
  duration : Nat
deriving DecidableEq

/-- `ScanResult()` with every field at its dataclass default. -/
def ScanResult.zero : ScanResult := ⟨0, 0, 0, 0, 0, 0, 0⟩

/-- One iteration of the completion loop (func.py lines 497-519): run the
disposition, bump `scanned`, then bump exactly one of
`errors`/`malware`/`clean` from the scan-result dict. -/
def scanStep (cfg : RunConfig) (scanOf : String → Except String ScanData)
    (oracleOf : String → FailOracle) (t : Nat)
    (acc : ScanResult × StorageState) (objName : String) : ScanResult × StorageState :=
  let scanResult := scanFile objName (scanOf objName)
  let disp := moveFileBasedOnScan cfg acc.2 scanResult t (oracleOf objName)
  let r0 := acc.1
  let r1 := { r0 with scanned := r0.scanned + 1 }
  let r2 :=
    if (dictGet scanResult "error").isSome then { r1 with errors := r1.errors + 1 }
    else if pyTruthyOpt (dictGet scanResult "is_malware_detected") then
      { r1 with malware := r1.malware + 1 }
    else { r1 with clean := r1.clean + 1 }
  (r2, disp.1)

/-- What one `scan_bucket` run produces: the returned `ScanResult`, the
final object store, and whether the Vision One connection was
initialized and (in the `finally` block) released. -/
structure RunOutput where
  result : ScanResult
  state : StorageState
  initDone : Bool
  quitDone : Bool
deriving DecidableEq

/-- `scan_bucket`: initialize the connection, set `total` from the
listing, return at once on an empty listing (before `duration` is
assigned), otherwise process every object and stamp `duration`; the
`finally` teardown runs on every path. -/
def scanBucket (cfg : RunConfig) (listing : List String)
    (scanOf : String → Except String ScanData) (oracleOf : String → FailOracle)
    (t elapsed : Nat) (st : StorageState) : RunOutput :=
  let r0 : ScanResult := ⟨listing.length, 0, 0, 0, 0, 0, 0⟩
  if listing.isEmpty then ⟨r0, st, true, true⟩
  else
    let fin := listing.foldl (scanStep cfg scanOf oracleOf t) (r0, st)
    ⟨{ fin.1 with duration := elapsed }, fin.2, true, true⟩

/-! ## Theorems -/

/-- The §4.4 decision table of the spec, written from the spec's words:
`TAG_ONLY`: always tag in place. `MOVE_MALWARE_ONLY`: malware with
quarantine present moves to quarantine, clean or quarantine-missing tags
in place. `MOVE_ALL` (or unrecognized): malware with quarantine present
moves to quarantine, clean with production present moves to production,
absent target falls back to the warned tag-in-place. "Present" is a
configured (truthy) bucket entry. -/
def decideSpecTable (mode : String) (isMalware : Bool)
    (quarantine production : Option String) : ScanAction :=
  if mode = "TAG_ONLY" then .tagInPlace
  else if mode = "MOVE_MALWARE_ONLY" then
    if isMalware then
      if pyTruthyOpt ((quarantine.map PyVal.str)) then .moveTo (quarantine.getD "")
      else .tagInPlace
    else .tagInPlace
  else
    if isMalware then
      if pyTruthyOpt ((quarantine.map PyVal.str)) then .moveTo (quarantine.getD "")
      else .fallbackTag
    else
      if pyTruthyOpt ((production.map PyVal.str)) then .moveTo (production.getD "")
      else .fallbackTag

/-- C1: for the move action the source object is never deleted unless the
copy to the target bucket succeeded. When the put raises, the store is
left exactly as it was (in particular the source object is untouched), no
delete is issued, and — whenever the put was actually reached, i.e. the
initial get succeeded — the returned status is the distinct
`copy_failed`; and on every run whatsoever, a delete is issued only if
the put was issued and returned successfully (the delete follows the put
in the source's straight-line order). -/
theorem move_put_failure_preserves_source (sourceBucket objectName targetBucket : String)
    (metadata : PyDict PyVal) (st : StorageState) (oracle : FailOracle)
    (hput : oracle.putFails = true) :
    ((moveFileToBucket sourceBucket objectName targetBucket metadata st oracle).state = st ∧
     (moveFileToBucket sourceBucket objectName targetBucket metadata st oracle).deleteIssued = false ∧
     (oracle.getFails = false →
       (stGet st (sourceBucket, objectName)).isSome →
       (moveFileToBucket sourceBucket objectName targetBucket metadata st oracle).status =
         "copy_failed")) ∧
    (∀ oracle' : FailOracle,
      (moveFileToBucket sourceBucket objectName targetBucket metadata st oracle').deleteIssued = true →
      (moveFileToBucket sourceBucket objectName targetBucket metadata st oracle').putIssued = true ∧
      (moveFileToBucket sourceBucket objectName targetBucket metadata st oracle').putSucceeded = true) := by
  constructor
  · rcases oracle with ⟨g, h, pf, df⟩
    cases hg : g <;> cases pf <;>
      rcases hst : stGet st (sourceBucket, objectName) with _ | o <;>
        cases df <;> simp_all [moveFileToBucket]
  · intro oracle'
    rcases oracle' with ⟨g, h, pf, df⟩
    cases g <;> cases pf <;> cases df <;>
      rcases hst : stGet st (sourceBucket, objectName) with _ | o <;>
        simp_all [moveFileToBucket]

theorem move_put_failure_preserves_source_witness :
    (moveFileToBucket "src" "obj" "tgt" []
        [(("src", "obj"), (⟨"data", Option.none, []⟩ : ObjData))]
        ⟨false, false, true, false⟩).state =
      [(("src", "obj"), (⟨"data", Option.none, []⟩ : ObjData))] ∧
    (moveFileToBucket "src" "obj" "tgt" []
        [(("src", "obj"), (⟨"data", Option.none, []⟩ : ObjData))]
        ⟨false, false, true, false⟩).deleteIssued = false ∧
    (moveFileToBucket "src" "obj" "tgt" []
        [(("src", "obj"), (⟨"data", Option.none, []⟩ : ObjData))]
        ⟨false, false, true, false⟩).status = "copy_failed" := by
  have h := move_put_failure_preserves_source "src" "obj" "tgt" []
    [(("src", "obj"), (⟨"data", Option.none, []⟩ : ObjData))]
    ⟨false, false, true, false⟩ rfl
  exact ⟨h.1.1, h.1.2.1, h.1.2.2 rfl (by decide)⟩

/-- C2: the disposition decision is a deterministic and total function of
(scanner mode, malware flag, configured buckets) — `decideAction` is a
pure Lean function, hence deterministic and total on every input — and
for each of the three scanner modes it agrees with the §4.4 decision
table on every verdict and every combination of configured bucket
entries. -/
theorem decide_action_matches_table (mode : String) (isMalware : Bool)
    (quarantine production : Option String) (hmode : mode ∈ validModes) :
    decideAction mode isMalware quarantine production =
      decideSpecTable mode isMalware quarantine production := by
  simp only [validModes, List.mem_cons, List.not_mem_nil, or_false] at hmode
  rcases hmode with rfl | rfl | rfl
  · -- MOVE_ALL
    cases isMalware
    · rcases production with _ | p
      · simp [decideAction, decideSpecTable, pyTruthyOpt]
      · by_cases hp : p = "" <;>
          simp [decideAction, decideSpecTable, pyTruthyOpt, pyTruthy, hp]
    · rcases quarantine with _ | q
      · simp [decideAction, decideSpecTable, pyTruthyOpt]
      · by_cases hq : q = "" <;>
          simp [decideAction, decideSpecTable, pyTruthyOpt, pyTruthy, hq]
  · -- MOVE_MALWARE_ONLY
    cases isMalware
    · simp [decideAction, decideSpecTable]
    · rcases quarantine with _ | q
      · simp [decideAction, decideSpecTable, pyTruthyOpt]
      · by_cases hq : q = "" <;>
          simp [decideAction, decideSpecTable, pyTruthyOpt, pyTruthy, hq]
  · -- TAG_ONLY
    simp [decideAction, decideSpecTable]

theorem decide_action_matches_table_witness :
    decideAction "MOVE_ALL" true (some "quar-bucket") Option.none =
      decideSpecTable "MOVE_ALL" true (some "quar-bucket") Option.none :=
  decide_action_matches_table "MOVE_ALL" true (some "quar-bucket") Option.none (by decide)

theorem scanStep_counts (cfg : RunConfig) (scanOf : String → Except String ScanData)
    (oracleOf : String → FailOracle) (t : Nat) (acc : ScanResult × StorageState)
    (objName : String) :
    (scanStep cfg scanOf oracleOf t acc objName).1.scanned = acc.1.scanned + 1 ∧
    (scanStep cfg scanOf oracleOf t acc objName).1.clean +
        (scanStep cfg scanOf oracleOf t acc objName).1.malware +
        (scanStep cfg scanOf oracleOf t acc objName).1.errors =
      acc.1.clean + acc.1.malware + acc.1.errors + 1 ∧
    (scanStep cfg scanOf oracleOf t acc objName).1.total = acc.1.total := by
  unfold scanStep
  by_cases h1 : (dictGet (scanFile objName (scanOf objName)) "error").isSome
  · simp [h1]
    omega
  · by_cases h2 : pyTruthyOpt (dictGet (scanFile objName (scanOf objName)) "is_malware_detected")
    · simp [h1, h2]
      omega
    · simp [h1, h2]
      omega

theorem scanStep_foldl_counts (cfg : RunConfig) (scanOf : String → Except String ScanData)
    (oracleOf : String → FailOracle) (t : Nat) (l : List String) :
    ∀ (acc : ScanResult × StorageState),
      (l.foldl (scanStep cfg scanOf oracleOf t) acc).1.scanned = acc.1.scanned + l.length ∧
      (l.foldl (scanStep cfg scanOf oracleOf t) acc).1.clean +
          (l.foldl (scanStep cfg scanOf oracleOf t) acc).1.malware +
          (l.foldl (scanStep cfg scanOf oracleOf t) acc).1.errors =
        acc.1.clean + acc.1.malware + acc.1.errors + l.length ∧
      (l.foldl (scanStep cfg scanOf oracleOf t) acc).1.total = acc.1.total := by
  induction l with
  | nil => intro acc; simp
  | cons objName rest ih =>
      intro acc
      simp only [List.foldl_cons, List.length_cons]
      have hstep := scanStep_counts cfg scanOf oracleOf t acc objName
      have hrest := ih (scanStep cfg scanOf oracleOf t acc objName)
      omega

/-- C3: for every completed run the `ScanResult` counters satisfy
`scanned = clean + malware + errors` and `total ≥ scanned`: each task's
completion increments `scanned` exactly once and exactly one of
`clean`/`malware`/`errors` — the scan-error dict path, the malware path,
and the clean path each bump exactly one counter, and the storage
failures of the disposition (all caught and returned as status strings)
never disturb the counters. -/
theorem scan_counters_invariant (cfg : RunConfig) (listing : List String)
    (scanOf : String → Except String ScanData) (oracleOf : String → FailOracle)
    (t elapsed : Nat) (st : StorageState) :
    (scanBucket cfg listing scanOf oracleOf t elapsed st).result.scanned =
        (scanBucket cfg listing scanOf oracleOf t elapsed st).result.clean +
        (scanBucket cfg listing scanOf oracleOf t elapsed st).result.malware +
        (scanBucket cfg listing scanOf oracleOf t elapsed st).result.errors ∧
      (scanBucket cfg listing scanOf oracleOf t elapsed st).result.scanned ≤
        (scanBucket cfg listing scanOf oracleOf t elapsed st).result.total := by
  unfold scanBucket
  by_cases hl : listing.isEmpty = true
  · simp [hl, ScanResult.zero]
  · have h := scanStep_foldl_counts cfg scanOf oracleOf t listing
      (⟨listing.length, 0, 0, 0, 0, 0, 0⟩, st)
    simp only [hl, Bool.false_eq_true, if_false]
    dsimp only at h ⊢
    omega

/-- C5 (amended): for an empty bucket listing, `scan_bucket` returns a
`ScanResult` with every counter zero — including `duration`, which stays
at its dataclass default of 0 because the early `return result` runs
before `result.duration = time.time() - start_time` is ever reached, so
the elapsed wall-clock time is NOT recorded — does not raise, leaves the
store untouched, and still performs the scan-connection initialization
and the `finally` teardown. -/
theorem scan_bucket_empty_run (cfg : RunConfig)
    (scanOf : String → Except String ScanData) (oracleOf : String → FailOracle)
    (t elapsed : Nat) (st : StorageState) :
    scanBucket cfg [] scanOf oracleOf t elapsed st =
      ⟨ScanResult.zero, st, true, true⟩ := rfl

/-- C5 counterexample: the claim says the elapsed wall-clock duration is
recorded in the result; on an empty listing with 5 elapsed time units the
returned duration is 0, not 5 — the early return skips the duration
assignment. -/
theorem scan_bucket_empty_duration_counterexample :
    (scanBucket ⟨"src", "TAG_ONLY", Option.none, Option.none⟩ []
        (fun _ => .error "unused") (fun _ => ⟨false, false, false, false⟩)
        0 5 []).result.duration = 0 ∧ (0 : Nat) ≠ 5 :=
  ⟨rfl, by decide⟩

theorem bucketConfig_congr (env1 env2 : String → Option String) (m : String)
    (c : PyDict PyVal)
    (hp : env1 "PRODUCTION_BUCKET_NAME" = env2 "PRODUCTION_BUCKET_NAME")
    (hq : env1 "QUARANTINE_BUCKET_NAME" = env2 "QUARANTINE_BUCKET_NAME") :
    bucketConfig env1 m c = bucketConfig env2 m c := by
  unfold bucketConfig
  rw [hp, hq]

theorem configTail_congr (env1 env2 : String → Option String)
    (vault : String → Except String String) (parseInt : String → Option Int)
    (m : String) (c : PyDict PyVal)
    (hp : env1 "PRODUCTION_BUCKET_NAME" = env2 "PRODUCTION_BUCKET_NAME")
    (hq : env1 "QUARANTINE_BUCKET_NAME" = env2 "QUARANTINE_BUCKET_NAME")
    (hv : env1 "VAULT_SECRET_OCID" = env2 "VAULT_SECRET_OCID")
    (hmf : env1 "MAX_FILES" = env2 "MAX_FILES")
    (hcs : env1 "CONCURRENT_SCANS" = env2 "CONCURRENT_SCANS") :
    configTail env1 vault parseInt m c = configTail env2 vault parseInt m c := by
  unfold configTail envGetD
  rw [bucketConfig_congr env1 env2 m c hp hq, hv, hmf, hcs]

/-- A complete, well-formed environment except that `V1_FILE_SCANNER_MODE`
is absent. -/
def envC4 : String → Option String := fun k =>
  if k = "SOURCE_BUCKET_NAME" then some "src-bucket"
  else if k = "V1_REGION" then some "us-east-1"
  else if k = "V1_SCANNER_ENDPOINT" then some "scanner.endpoint"
  else if k = "PRODUCTION_BUCKET_NAME" then some "prod-bucket"
  else if k = "QUARANTINE_BUCKET_NAME" then some "quar-bucket"
  else if k = "VAULT_SECRET_OCID" then some "ocid1.vaultsecret.oc1.example"
  else Option.none

/-- C4 counterexample: the claim says an absent scanner-mode value does
not make configuration resolution fail. On an environment where every
other variable is present and well-formed, resolution returns exactly the
fatal missing-variable error naming `V1_FILE_SCANNER_MODE` — while the
same environment with the variable set to `MOVE_ALL` resolves
successfully, so the absence alone caused the failure. -/
theorem missing_mode_counterexample :
    (getConfiguration envC4 (fun _ => .ok "api-key") (fun _ => some 100)).1 =
      .error "Missing required environment variable: V1_FILE_SCANNER_MODE" ∧
    (getConfiguration (envOverride envC4 "V1_FILE_SCANNER_MODE" "MOVE_ALL")
        (fun _ => .ok "api-key") (fun _ => some 100)).1.isOk = true :=
  ⟨rfl, by decide⟩

/-- C4 (amended): if the scanner-mode environment value is absent (or
empty, which `if not value` treats identically), configuration resolution
fails fast with a fatal error naming `V1_FILE_SCANNER_MODE`, exactly like
the other mandatory keys — `V1_FILE_SCANNER_MODE` sits in
`required_vars`, so the in-code `MOVE_ALL` default for an absent mode is
unreachable; only a present-but-unrecognized value falls back to
`MOVE_ALL`. -/
theorem missing_mode_is_fatal (env : String → Option String)
    (vault : String → Except String String) (parseInt : String → Option Int)
    (h1 : ∃ v, env "SOURCE_BUCKET_NAME" = some v ∧ v ≠ "")
    (h2 : ∃ v, env "V1_REGION" = some v ∧ v ≠ "")
    (h3 : ∃ v, env "V1_SCANNER_ENDPOINT" = some v ∧ v ≠ "")
    (hm : env "V1_FILE_SCANNER_MODE" = Option.none ∨
      env "V1_FILE_SCANNER_MODE" = some "") :
    (getConfiguration env vault parseInt).1 =
      .error "Missing required environment variable: V1_FILE_SCANNER_MODE" := by
  obtain ⟨s1, hs1, hs1'⟩ := h1
  obtain ⟨s2, hs2, hs2'⟩ := h2
  obtain ⟨s3, hs3, hs3'⟩ := h3
  have hreq : requireEnvVars env requiredVars [] =
      .error "Missing required environment variable: V1_FILE_SCANNER_MODE" := by
    rcases hm with hm | hm <;>
      simp [requiredVars, requireEnvVars, hs1, hs2, hs3, hs1', hs2', hs3', hm]
  unfold getConfiguration
  rw [hreq]

theorem missing_mode_is_fatal_witness :
    (getConfiguration envC4 (fun _ => .ok "api-key") (fun _ => some 100)).1 =
      .error "Missing required environment variable: V1_FILE_SCANNER_MODE" :=
  missing_mode_is_fatal envC4 (fun _ => .ok "api-key") (fun _ => some 100)
    ⟨"src-bucket", rfl, by decide⟩ ⟨"us-east-1", rfl, by decide⟩
    ⟨"scanner.endpoint", rfl, by decide⟩ (Or.inl rfl)

theorem envOverride_ne (env : String → Option String) (k v : String) {k' : String}
    (h : k' ≠ k) : envOverride env k v k' = env k' := by
  unfold envOverride
  rw [if_neg h]

/-- A complete, well-formed environment whose scanner-mode value is the
unrecognized string `BANANA`. -/
def envC7 : String → Option String := fun k =>
  if k = "V1_FILE_SCANNER_MODE" then some "BANANA" else envC4 k

/-- C7 counterexample: the claim quantifies over every scanner-mode value
outside the three valid ones and says resolution never raises for it. The
empty string is such a value, yet with it (and every other variable
present and well-formed) resolution returns the fatal missing-variable
error: `if not value` treats an empty mode value as a missing mandatory
variable. -/
theorem empty_mode_counterexample :
    ("" ∈ validModes) = False ∧
    (getConfiguration (envOverride envC7 "V1_FILE_SCANNER_MODE" "")
        (fun _ => .ok "api-key") (fun _ => some 100)).1 =
      .error "Missing required environment variable: V1_FILE_SCANNER_MODE" :=
  ⟨by decide, rfl⟩

/-- C7 (amended): for every NONEMPTY scanner-mode value that is not one
of MOVE_ALL, MOVE_MALWARE_ONLY, TAG_ONLY, configuration resolution (once
the three preceding mandatory variables are present, so the mode check is
reached) replaces the value with MOVE_ALL, emits the fallback warning,
and produces exactly the result it would produce had the environment
carried MOVE_ALL — in particular the unrecognized value itself never
causes an error. An empty-string value is instead treated as a missing
mandatory variable and is fatal (see the counterexample). -/
theorem invalid_mode_falls_back (env : String → Option String)
    (vault : String → Except String String) (parseInt : String → Option Int)
    (s : String)
    (h1 : ∃ v, env "SOURCE_BUCKET_NAME" = some v ∧ v ≠ "")
    (h2 : ∃ v, env "V1_REGION" = some v ∧ v ≠ "")
    (h3 : ∃ v, env "V1_SCANNER_ENDPOINT" = some v ∧ v ≠ "")
    (hm : env "V1_FILE_SCANNER_MODE" = some s) (hs : s ≠ "")
    (hinv : s ∉ validModes) :
    (getConfiguration env vault parseInt).1 =
      (getConfiguration (envOverride env "V1_FILE_SCANNER_MODE" "MOVE_ALL")
        vault parseInt).1 ∧
    ("Invalid scanner mode " ++ s ++ ", falling back to MOVE_ALL") ∈
      (getConfiguration env vault parseInt).2 := by
  obtain ⟨s1, hs1, hs1'⟩ := h1
  obtain ⟨s2, hs2, hs2'⟩ := h2
  obtain ⟨s3, hs3, hs3'⟩ := h3
  have hLm : pyLower "V1_FILE_SCANNER_MODE" = "v1_file_scanner_mode" := by decide
  have hreqA : requireEnvVars env requiredVars [] =
      .ok (dictSet (dictSet (dictSet (dictSet [] (pyLower "SOURCE_BUCKET_NAME") (.str s1))
        (pyLower "V1_REGION") (.str s2)) (pyLower "V1_SCANNER_ENDPOINT") (.str s3))
        (pyLower "V1_FILE_SCANNER_MODE") (.str s)) := by
    simp [requiredVars, requireEnvVars, hs1, hs2, hs3, hm, hs1', hs2', hs3', hs]
  have he1 : envOverride env "V1_FILE_SCANNER_MODE" "MOVE_ALL" "SOURCE_BUCKET_NAME" =
      some s1 := by rw [envOverride_ne env _ _ (by decide), hs1]
  have he2 : envOverride env "V1_FILE_SCANNER_MODE" "MOVE_ALL" "V1_REGION" = some s2 := by
    rw [envOverride_ne env _ _ (by decide), hs2]
  have he3 : envOverride env "V1_FILE_SCANNER_MODE" "MOVE_ALL" "V1_SCANNER_ENDPOINT" =
      some s3 := by rw [envOverride_ne env _ _ (by decide), hs3]
  have he4 : envOverride env "V1_FILE_SCANNER_MODE" "MOVE_ALL" "V1_FILE_SCANNER_MODE" =
      some "MOVE_ALL" := by
    unfold envOverride
    rw [if_pos rfl]
  have hreqB : requireEnvVars (envOverride env "V1_FILE_SCANNER_MODE" "MOVE_ALL")
      requiredVars [] =
      .ok (dictSet (dictSet (dictSet (dictSet [] (pyLower "SOURCE_BUCKET_NAME") (.str s1))
        (pyLower "V1_REGION") (.str s2)) (pyLower "V1_SCANNER_ENDPOINT") (.str s3))
        (pyLower "V1_FILE_SCANNER_MODE") (.str "MOVE_ALL")) := by
    simp [requiredVars, requireEnvVars, he1, he2, he3, he4, hs1', hs2', hs3',
      (by decide : ("MOVE_ALL" : String) ≠ "")]
  rw [hLm] at hreqA hreqB
  have hcondA : (s ∈ validModes) = False := eq_false hinv
  have hcondB : (("MOVE_ALL" : String) ∈ validModes) = True := eq_true (by decide)
  have hA : getConfiguration env vault parseInt =
      (configTail env vault parseInt "MOVE_ALL"
        (dictSet (dictSet (dictSet (dictSet [] (pyLower "SOURCE_BUCKET_NAME") (.str s1))
          (pyLower "V1_REGION") (.str s2)) (pyLower "V1_SCANNER_ENDPOINT") (.str s3))
          "v1_file_scanner_mode" (.str "MOVE_ALL")),
       ["Invalid scanner mode " ++ s ++ ", falling back to MOVE_ALL"]) := by
    unfold getConfiguration
    rw [hreqA]
    dsimp only
    rw [dictGet_dictSet_same]
    dsimp only
    simp only [hcondA, if_false]
    rw [dictSet_dictSet_same]
  have hB : getConfiguration (envOverride env "V1_FILE_SCANNER_MODE" "MOVE_ALL")
      vault parseInt =
      (configTail (envOverride env "V1_FILE_SCANNER_MODE" "MOVE_ALL") vault parseInt
        "MOVE_ALL"
        (dictSet (dictSet (dictSet (dictSet [] (pyLower "SOURCE_BUCKET_NAME") (.str s1))
          (pyLower "V1_REGION") (.str s2)) (pyLower "V1_SCANNER_ENDPOINT") (.str s3))
          "v1_file_scanner_mode" (.str "MOVE_ALL")), []) := by
    unfold getConfiguration
    rw [hreqB]
    dsimp only
    rw [dictGet_dictSet_same]
    dsimp only
    simp only [hcondB, if_true]
  constructor
  · rw [hA, hB]
    exact configTail_congr env (envOverride env "V1_FILE_SCANNER_MODE" "MOVE_ALL")
      vault parseInt "MOVE_ALL" _
      (envOverride_ne env _ _ (by decide)).symm
      (envOverride_ne env _ _ (by decide)).symm
      (envOverride_ne env _ _ (by decide)).symm
      (envOverride_ne env _ _ (by decide)).symm
      (envOverride_ne env _ _ (by decide)).symm
  · rw [hA]
    exact List.mem_singleton.mpr rfl

theorem invalid_mode_falls_back_witness :
    (getConfiguration envC7 (fun _ => .ok "api-key") (fun _ => some 100)).1 =
      (getConfiguration (envOverride envC7 "V1_FILE_SCANNER_MODE" "MOVE_ALL")
        (fun _ => .ok "api-key") (fun _ => some 100)).1 ∧
    ("Invalid scanner mode " ++ "BANANA" ++ ", falling back to MOVE_ALL") ∈
      (getConfiguration envC7 (fun _ => .ok "api-key") (fun _ => some 100)).2 :=
  invalid_mode_falls_back envC7 (fun _ => .ok "api-key") (fun _ => some 100) "BANANA"
    ⟨"src-bucket", rfl, by decide⟩ ⟨"us-east-1", rfl, by decide⟩
    ⟨"scanner.endpoint", rfl, by decide⟩ rfl (by decide) (by decide)

/-- C6: the dict `_scan_file` returns carries exactly the keys
`object_name` and `error` on the failure path and exactly
`object_name`, `is_malware_detected`, `scan_id`, `file_sha256`,
`scanner_version` on the success path; it never carries a
`malware_names` key. Consequently the metadata dict
`move_file_based_on_scan` builds from such a verdict — whatever the
malware flag — never contains a `malwarenames` entry: the
`scan_result.get('malware_names')` guard is always falsy, so the
cap-to-3 branch is unreachable on verdicts produced by this pipeline. -/
theorem scan_file_result_keys (objectName : String)
    (outcome : Except String ScanData) (t : Nat) :
    ((scanFile objectName outcome).map Prod.fst = ["object_name", "error"] ∨
     (scanFile objectName outcome).map Prod.fst =
       ["object_name", "is_malware_detected", "scan_id", "file_sha256",
        "scanner_version"]) ∧
    dictGet (scanFile objectName outcome) "malware_names" = Option.none ∧
    dictGet (buildScanMetadata (scanFile objectName outcome)
        (pyBoolOf (dictGet (scanFile objectName outcome) "is_malware_detected")) t)
      "malwarenames" = Option.none := by
  have hmn : dictGet (scanFile objectName outcome) "malware_names" = Option.none := by
    rcases outcome with e | d <;> rfl
  refine ⟨?_, hmn, ?_⟩
  · rcases outcome with e | d
    · exact Or.inl rfl
    · exact Or.inr rfl
  · unfold buildScanMetadata
    rw [hmn]
    simp only [pyTruthyOpt, Bool.and_false, Bool.false_eq_true, if_false]
    rfl

/-- C8: the metadata merge `\x7b**existing_meta, **metadata\x7d` maps
every key of the scan metadata to its scan value in the merged result
(new overrides old on collision), and preserves every key present only in
the pre-existing metadata with its original value — no pre-existing key
is silently dropped. -/
theorem metadata_merge_precedence (existingMeta scanMeta : PyDict PyVal)
    (hnd : (scanMeta.map Prod.fst).Nodup) :
    (∀ k v, dictGet scanMeta k = some v →
      dictGet (dictMerge existingMeta scanMeta) k = some v) ∧
    (∀ k, dictGet scanMeta k = Option.none →
      dictGet (dictMerge existingMeta scanMeta) k = dictGet existingMeta k) :=
  ⟨fun _ _ h => dictGet_dictMerge_of_some existingMeta hnd h,
   fun _ h => dictGet_dictMerge_of_none existingMeta h⟩

theorem metadata_merge_precedence_witness :
    dictGet (dictMerge [("a", PyVal.str "old"), ("b", PyVal.str "keep")]
        [("a", PyVal.str "new"), ("c", PyVal.str "add")]) "a" =
      some (PyVal.str "new") ∧
    dictGet (dictMerge [("a", PyVal.str "old"), ("b", PyVal.str "keep")]
        [("a", PyVal.str "new"), ("c", PyVal.str "add")]) "b" =
      some (PyVal.str "keep") := by
  have h := metadata_merge_precedence
    [("a", PyVal.str "old"), ("b", PyVal.str "keep")]
    [("a", PyVal.str "new"), ("c", PyVal.str "add")] (by decide)
  refine ⟨h.1 "a" (PyVal.str "new") (by decide), ?_⟩
  rw [h.2 "b" (by decide)]
  decide

/-- C9: the metadata merge is idempotent — merging the same scan metadata
twice over the same base yields the same dict as merging it once:
colliding keys are overwritten in place, not duplicated. -/
theorem metadata_merge_idempotent (base scanMeta : PyDict PyVal)
    (hnd : (scanMeta.map Prod.fst).Nodup) :
    dictMerge (dictMerge base scanMeta) scanMeta = dictMerge base scanMeta :=
  dictMerge_self_of_sub fun _ hkv =>
    dictGet_dictMerge_of_some base hnd (dictGet_of_mem_nodup hnd hkv)

theorem metadata_merge_idempotent_witness :
    dictMerge
        (dictMerge [("a", PyVal.str "old"), ("b", PyVal.str "keep")]
          [("a", PyVal.str "new"), ("c", PyVal.str "add")])
        [("a", PyVal.str "new"), ("c", PyVal.str "add")] =
      dictMerge [("a", PyVal.str "old"), ("b", PyVal.str "keep")]
        [("a", PyVal.str "new"), ("c", PyVal.str "add")] :=
  metadata_merge_idempotent [("a", PyVal.str "old"), ("b", PyVal.str "keep")]
    [("a", PyVal.str "new"), ("c", PyVal.str "add")] (by decide)

/-- C10: the external vault fetch is performed at most once per process
for each identifier across any sequence of successful lookups — starting
from the empty process cache, the fetch count for an identifier whose
lookups all succeed is at most 1; the first successful call stores the
value; a call that finds the identifier cached returns the cached value
without fetching; a failed fetch leaves the cache unchanged (it is never
cached) and the next call for the same identifier attempts the fetch
again. -/
theorem secret_cache_at_most_once
    (calls : List (String × Except String String)) (s : String)
    (cache : PyDict String) (v e : String) (f : Except String String)
    (hok : ∀ g, (s, g) ∈ calls → ∃ w, g = .ok w) :
    fetchCountFor s (runSecretCalls [] calls).2 ≤ 1 ∧
    (dictGet cache s = Option.none →
      getSecretFromVault cache s (.ok v) = (.ok v, dictSet cache s v, true)) ∧
    (dictGet cache s = some v →
      getSecretFromVault cache s f = (.ok v, cache, false)) ∧
    (dictGet cache s = Option.none →
      getSecretFromVault cache s (.error e) =
        (.error ("Failed to retrieve secret from vault: " ++ e), cache, true) ∧
      (getSecretFromVault cache s f).2.2 = true) := by
  refine ⟨runSecretCalls_at_most_one_fetch calls hok, ?_, ?_, ?_⟩
  · intro h
    simp [getSecretFromVault, h]
  · intro h
    simp [getSecretFromVault, h]
  · intro h
    refine ⟨by simp [getSecretFromVault, h], ?_⟩
    rcases f with e' | v' <;> simp [getSecretFromVault, h]

theorem secret_cache_at_most_once_witness :
    fetchCountFor "id1"
        (runSecretCalls [] [("id1", Except.ok "v1"), ("id1", Except.ok "v1")]).2 ≤ 1 ∧
    getSecretFromVault [] "id1" (.ok "v1") = (.ok "v1", [("id1", "v1")], true) ∧
    getSecretFromVault [("id1", "v1")] "id1" (.ok "v2") = (.ok "v1", [("id1", "v1")], false) ∧
    getSecretFromVault [] "id1" (.error "boom") =
      (.error "Failed to retrieve secret from vault: boom", [], true) := by
  have hok : ∀ g : Except String String,
      (("id1" : String), g) ∈
        ([("id1", Except.ok "v1"), ("id1", Except.ok "v1")] :
          List (String × Except String String)) →
      ∃ w, g = Except.ok w := by
    intro g hg
    simp only [List.mem_cons, List.not_mem_nil, or_false] at hg
    rcases hg with h | h <;> exact ⟨"v1", congrArg Prod.snd h⟩
  have h1 := secret_cache_at_most_once
    [("id1", Except.ok "v1"), ("id1", Except.ok "v1")] "id1" [] "v1" "boom"
    (.ok "v2") hok
  have h2 := secret_cache_at_most_once
    [("id1", Except.ok "v1"), ("id1", Except.ok "v1")] "id1" [("id1", "v1")] "v1" "boom"
    (.ok "v2") hok
  exact ⟨h1.1, h1.2.1 rfl, h2.2.2.1 rfl, (h1.2.2.2 rfl).1⟩
